import Mathlib

/-!
Verification development for `main.ts` of `russfeld/cis598_github`, a Deno
batch client that provisions per-student GitHub project boards over the
GitHub GraphQL API.

The source is shallowly embedded as follows:
* JavaScript runtime values appearing in API responses are modelled by
  `JsValue`; JavaScript property access (`response.data.user.id`) is
  modelled by `jsGet` / `derefChain`, where accessing a property of
  `null`/`undefined` raises a `TypeError`, and a missing property of an
  object yields `JsValue.undefined`.
* Each GraphQL query/mutation string built by the source is represented
  structurally by a `GraphQLCall` carrying exactly the interpolated values
  of the corresponding template literal.
* The effectful functions become values of the monad `M`, which threads the
  environment-variable store `Env`, consults an `Oracle` (the platform's
  response to each call) and records the list of HTTP requests issued and
  the lines printed with `console.log`.
* `Deno.readTextFileSync` is modelled by passing the file's contents to
  `makeProjects` directly; `String.prototype.split` with a one-character
  separator is modelled by `jsSplit`.
-/

set_option autoImplicit false

namespace CIS598

/-- A JavaScript runtime value, as far as the script observes them:
`JSON.parse` results plus `undefined`. -/
inductive JsValue where
  | undefined
  | null
  | str (s : String)
  | num (n : Int)
  | bool (b : Bool)
  | obj (fields : List (String × JsValue))
  | arr (elems : List JsValue)

/-- A thrown JavaScript exception: either a `TypeError` from dereferencing
`null`/`undefined` (carrying the property name being read) or an `Error`
thrown with `throw new Error(message)`. -/
inductive JsErr where
  | typeError (readingKey : String)
  | errorMsg (message : String)
deriving DecidableEq

/-- JavaScript property access `v[key]`: reading a property of `null` or
`undefined` throws a `TypeError`; a missing property of an object (or a
property of a primitive that does not have it) evaluates to `undefined`. -/
def jsGet (v : JsValue) (key : String) : Except JsErr JsValue :=
  match v with
  | JsValue.undefined => Except.error (JsErr.typeError key)
  | JsValue.null => Except.error (JsErr.typeError key)
  | JsValue.obj fields => Except.ok ((List.lookup key fields).getD JsValue.undefined)
  | _ => Except.ok JsValue.undefined

/-- A chain of JavaScript property accesses `v.k1.k2...kn`, evaluated left
to right, stopping at the first `TypeError`. -/
def derefChain (v : JsValue) : List String → Except JsErr JsValue
  | [] => Except.ok v
  | k :: ks =>
    match jsGet v k with
    | Except.error e => Except.error e
    | Except.ok w => derefChain w ks

mutual

/-- JavaScript string coercion (as in template literals and `+`) of the
values the script interpolates. An array is joined with commas; an object
prints as `[object Object]`. -/
def jsInterp : JsValue → String
  | JsValue.undefined => "undefined"
  | JsValue.null => "null"
  | JsValue.str s => s
  | JsValue.num n => toString n
  | JsValue.bool b => if b then "true" else "false"
  | JsValue.obj _ => "[object Object]"
  | JsValue.arr l => jsInterpList l

/-- Comma-join of array elements, as `Array.prototype.toString`. -/
def jsInterpList : List JsValue → String
  | [] => ""
  | [v] => jsInterp v
  | v :: rest => jsInterp v ++ "," ++ jsInterpList rest

end

/-- Coercion of a possibly-`undefined` JavaScript string (e.g. the result of
`Deno.env.get` or an out-of-bounds array index) when it is concatenated or
interpolated: `undefined` prints as the literal string `"undefined"`. -/
def jsInterpOpt : Option String → String
  | none => "undefined"
  | some s => s

/-- JavaScript `a || b` for a possibly-`undefined` string `a`: both
`undefined` and the empty string are falsy and select the default. -/
def jsOr (v : Option String) (default : String) : String :=
  match v with
  | none => default
  | some s => if s = "" then default else s

/-- JavaScript strict equality `v === s` between a runtime value and a
string: true exactly when `v` is a string with the same contents. -/
def jsStrictEqStr (v : JsValue) (s : String) : Bool :=
  match v with
  | JsValue.str t => t == s
  | _ => false

/-- `String.prototype.split` restricted to a one-character separator, on the
underlying character list. `[]` splits to `[[]]`, matching JavaScript's
`"".split(sep) == [""]`. -/
def splitListOn (sep : Char) : List Char → List (List Char)
  | [] => [[]]
  | c :: cs =>
    let rest := splitListOn sep cs
    if c = sep then [] :: rest
    else (c :: rest.headD []) :: rest.tail

/-- JavaScript `s.split(sep)` for a one-character separator. -/
def jsSplit (s : String) (sep : Char) : List String :=
  (splitListOn sep s.data).map (fun l => String.mk l)

/-- The structured content of each GraphQL query/mutation string built in
`main.ts`: one constructor per template literal, carrying exactly the
values interpolated into it. -/
inductive GraphQLCall where
  /-- `getOrganizationId`: `organization(login: ...) { id }`. -/
  | organizationIdQuery (organization : String)
  /-- `getUserId`: `user(login: ...) { id }`. -/
  | userQuery (username : String)
  /-- `getRepository`: `repository(owner: ..., name: ...) { id }`. -/
  | repositoryQuery (organization : String) (repository : String)
  /-- `getTemplateProjectId`: `organization(login: ...) { projectV2(number: ...) { id title } }`. -/
  | organizationProjectV2Query (organization : String) (projectNumber : String)
  /-- `findProject`: `organization(login: ...) { projectsV2(first: ..., query: ...) { nodes { id title } } }`. -/
  | projectsV2Query (organization : String) (first : Nat) (searchQuery : String)
  /-- `createProject`: `createProjectV2(input: {title, ownerId, repositoryId})`. -/
  | createProjectV2 (title : String) (ownerId : String) (repositoryId : String)
  /-- `copyProject`: `copyProjectV2(input: {title, ownerId, projectId})` — note there is no repository field. -/
  | copyProjectV2 (title : String) (ownerId : String) (projectId : String)
  /-- `linkProjectToRepository`: `linkProjectV2ToRepository(input: {projectId, repositoryId})`. -/
  | linkProjectV2ToRepository (projectId : String) (repositoryId : String)
  /-- `addCollaboratorToProject`: `updateProjectV2Collaborators(input: {projectId, collaborators: [{role, userId}]})`; the role is the constant `ADMIN` in the source. -/
  | updateProjectV2Collaborators (projectId : String) (role : String) (userId : String)
deriving DecidableEq

/-- One HTTP POST issued by `githubGraphQuery`: the fetch URL, the
`Authorization` header, and the structured content of the `query` field of
the JSON body. (The constant headers `Content-Type: application/json` and
`X-Github-Next-Global-ID: 1` are the same on every request and are not
recorded.) -/
structure HttpRequest where
  url : String
  authorization : String
  call : GraphQLCall
deriving DecidableEq

/-- The environment-variable store read through `Deno.env.get`; `none`
models an absent variable. -/
structure Env where
  githubApiUrl : Option String
  githubToken : Option String
  githubOrganization : Option String
  githubAssignmentPrefixVar : Option String
  githubProjectTemplateNumber : Option String

/-- The platform's behaviour: the parsed JSON body (`response.json()`)
returned for each request. -/
def Oracle : Type := GraphQLCall → JsValue

/-- The effect monad of the embedding: given the environment variables and
the platform oracle, a computation yields the list of HTTP requests issued,
the `console.log` lines printed, and either a value or a thrown
JavaScript exception. -/
def M (α : Type) : Type :=
  Env → Oracle → List HttpRequest × List String × Except JsErr α

namespace M

def pure {α : Type} (a : α) : M α := fun _ _ => ([], [], Except.ok a)

def bind {α β : Type} (x : M α) (f : α → M β) : M β := fun env o =>
  match x env o with
  | (c1, l1, Except.error e) => (c1, l1, Except.error e)
  | (c1, l1, Except.ok a) =>
    match f a env o with
    | (c2, l2, r2) => (c1 ++ c2, l1 ++ l2, r2)

instance : Monad M where
  pure := M.pure
  bind := M.bind

/-- `console.log(line)`. -/
def log (line : String) : M Unit := fun _ _ => ([], [line], Except.ok ())

/-- Read the environment-variable store (`Deno.env.get`). -/
def readEnv : M Env := fun env _ => ([], [], Except.ok env)

/-- Re-raise the outcome of a pure JavaScript expression (such as a chain of
property accesses) inside the monad. -/
def liftExcept {α : Type} (x : Except JsErr α) : M α := fun _ _ => ([], [], x)

/-- `throw` of a JavaScript exception. -/
def throwErr {α : Type} (e : JsErr) : M α := fun _ _ => ([], [], Except.error e)

/-- `try { x } catch (e) { handler e }`. -/
def tryCatch {α : Type} (x : M α) (handler : JsErr → M α) : M α := fun env o =>
  match x env o with
  | (c1, l1, Except.ok a) => (c1, l1, Except.ok a)
  | (c1, l1, Except.error e) =>
    match handler e env o with
    | (c2, l2, r2) => (c1 ++ c2, l1 ++ l2, r2)

end M

/-- Requests issued by a computation. -/
def callsOf {α : Type} (x : M α) (env : Env) (o : Oracle) : List HttpRequest :=
  (x env o).1

/-- Lines printed by a computation. -/
def logsOf {α : Type} (x : M α) (env : Env) (o : Oracle) : List String :=
  (x env o).2.1

/-- Final outcome of a computation. -/
def resultOf {α : Type} (x : M α) (env : Env) (o : Oracle) : Except JsErr α :=
  (x env o).2.2

/-- `githubGraphQuery` (main.ts:265-280): one HTTP POST to the configured
endpoint with the bearer credential, returning the parsed JSON body. The
URL falls back to `"undefined"` via `||`; the `Authorization` header
concatenates a possibly-`undefined` token. -/
def githubGraphQuery (query : GraphQLCall) : M JsValue := fun env o =>
  ([{ url := jsOr env.githubApiUrl "undefined",
      authorization := "Bearer " ++ jsInterpOpt env.githubToken,
      call := query }], [], Except.ok (o query))

/-- `getOrganizationId` (main.ts:249-257): resolves an organization login to
its identifier via `response.data.organization.id`. -/
def getOrganizationId (organization : String) : M JsValue := do
  let response ← githubGraphQuery (GraphQLCall.organizationIdQuery organization)
  M.liftExcept (derefChain response ["data", "organization", "id"])

/-- `getUserId` (main.ts:233-241): resolves a username to its identifier via
`response.data.user.id`. -/
def getUserId (username : String) : M JsValue := do
  let response ← githubGraphQuery (GraphQLCall.userQuery username)
  M.liftExcept (derefChain response ["data", "user", "id"])

/-- `getRepository` (main.ts:217-225): resolves a repository name within an
organization to its identifier via `response.data.repository.id`. -/
def getRepository (organization : String) (repository : String) : M JsValue := do
  let response ← githubGraphQuery (GraphQLCall.repositoryQuery organization repository)
  M.liftExcept (derefChain response ["data", "repository", "id"])

/-- `getTemplateProjectId` (main.ts:86-98): resolves a project number within
an organization to the pair (project id, project title); the source
dereferences `response.data.organization.projectV2` twice, once for `id`
and once for `title`. -/
def getTemplateProjectId (organization : String) (projectNumber : String) :
    M (JsValue × JsValue) := do
  M.log ("Getting template project id for project number: " ++ projectNumber)
  let response ← githubGraphQuery
    (GraphQLCall.organizationProjectV2Query organization projectNumber)
  let i ← M.liftExcept (derefChain response ["data", "organization", "projectV2", "id"])
  let t ← M.liftExcept (derefChain response ["data", "organization", "projectV2", "title"])
  pure (i, t)

/-- `createProject` (main.ts:108-118): creates a blank project linked to a
repository in one mutation. -/
def createProject (title : String) (owner : String) (repository : String) : M JsValue := do
  let response ← githubGraphQuery (GraphQLCall.createProjectV2 title owner repository)
  M.liftExcept (derefChain response ["data", "createProjectV2", "projectV2", "id"])

/-- `copyProject` (main.ts:128-138): creates a project by copying a template;
the single mutation carries title, owner id and template project id only. -/
def copyProject (title : String) (owner : String) (templateId : String) : M JsValue := do
  let response ← githubGraphQuery (GraphQLCall.copyProjectV2 title owner templateId)
  M.liftExcept (derefChain response ["data", "copyProjectV2", "projectV2", "id"])

/-- The client-side scan of `findProject` (main.ts:160-165): walk the
returned nodes in order, return `project.id` for the first node whose
`title` is strictly equal to the target, otherwise throw the not-found
`Error`. -/
def scanProjects (title : String) (organization : String) :
    List JsValue → Except JsErr JsValue
  | [] =>
    Except.error (JsErr.errorMsg
      ("Project with title \"" ++ title ++ "\" not found in organization \""
        ++ organization ++ "\"."))
  | project :: rest =>
    match jsGet project "title" with
    | Except.error e => Except.error e
    | Except.ok t =>
      if jsStrictEqStr t title then jsGet project "id"
      else scanProjects title organization rest

/-- `findProject` (main.ts:147-166): one query for the first page of at most
100 open projects whose title contains the target, then the client-side
exact-title scan `scanProjects`. -/
def findProject (title : String) (organization : String) : M JsValue := do
  let response ← githubGraphQuery
    (GraphQLCall.projectsV2Query organization 100 ("is:open " ++ title))
  let nodes ← M.liftExcept
    (derefChain response ["data", "organization", "projectsV2", "nodes"])
  match nodes with
  | JsValue.arr projects => M.liftExcept (scanProjects title organization projects)
  | _ => M.throwErr (JsErr.typeError "Symbol.iterator")

/-- `linkProjectToRepository` (main.ts:175-185): links a project to a
repository; returns `response.data.linkProjectV2ToRepository.repository.id`. -/
def linkProjectToRepository (project : String) (repository : String) : M JsValue := do
  let response ← githubGraphQuery
    (GraphQLCall.linkProjectV2ToRepository project repository)
  M.liftExcept
    (derefChain response ["data", "linkProjectV2ToRepository", "repository", "id"])

/-- `addCollaboratorToProject` (main.ts:194-208): grants a user the `ADMIN`
collaborator role on a project; returns the resulting total collaborator
count. -/
def addCollaboratorToProject (project : String) (user : String) : M JsValue := do
  let response ← githubGraphQuery
    (GraphQLCall.updateProjectV2Collaborators project "ADMIN" user)
  M.liftExcept
    (derefChain response ["data", "updateProjectV2Collaborators", "collaborators", "totalCount"])

/-- The body of the `try` block of the per-record loop (main.ts:34-65,
steps 4a-4e): resolve user, resolve repository (name = prefix + "-" +
username, both read inside the loop and coerced from possibly-`undefined`
values), copy the template project (the statically configured strategy;
`createProject` and `findProject` are commented out at the call site),
link, add collaborator, with the source's `console.log` lines.
`user.get? i` models the JavaScript index `user[i]`, which is `undefined`
out of bounds. -/
def recordPipeline (organization : String) (organizationId : JsValue)
    (templateId : JsValue) (user : List String) : M Unit := do
  let userId ← getUserId (jsInterpOpt (user.get? 1))
  M.log ("\tGithub User ID for " ++ jsInterpOpt (user.get? 1) ++ " is " ++ jsInterp userId)
  let env ← M.readEnv
  let repositoryName :=
    jsInterpOpt env.githubAssignmentPrefixVar ++ "-" ++ jsInterpOpt (user.get? 1)
  let repositoryId ← getRepository organization repositoryName
  M.log ("\tRepository ID for " ++ repositoryName ++ " is " ++ jsInterp repositoryId)
  let projectId ← copyProject (jsInterpOpt (user.get? 0)) (jsInterp organizationId)
    (jsInterp templateId)
  M.log ("\tFound/Created Project " ++ jsInterp projectId ++ " for "
    ++ jsInterpOpt (user.get? 0))
  let _ ← linkProjectToRepository (jsInterp projectId) (jsInterp repositoryId)
  M.log ("\tLinked project " ++ jsInterp projectId ++ " to repository " ++ repositoryName)
  let collabCount ← addCollaboratorToProject (jsInterp projectId) (jsInterp userId)
  M.log ("\tProject now has " ++ jsInterp collabCount ++ " collaborators")

/-- How `console.log(error)` renders a thrown exception in the catch block
(main.ts:73). -/
def jsErrString : JsErr → String
  | JsErr.typeError k => "TypeError: Cannot read properties of null or undefined (reading " ++ k ++ ")"
  | JsErr.errorMsg m => "Error: " ++ m

/-- One iteration of the per-record loop (main.ts:31-75): the label log,
then the `try`/`catch` around the pipeline; the catch logs the record's
label and the error and swallows the failure. -/
def processUser (organization : String) (organizationId : JsValue)
    (templateId : JsValue) (user : List String) : M Unit := do
  M.log ("Creating project for " ++ jsInterpOpt (user.get? 0))
  M.tryCatch (recordPipeline organization organizationId templateId user)
    (fun error => do
      M.log ("\tError creating project for " ++ jsInterpOpt (user.get? 0))
      M.log (jsErrString error))

/-- Iteration over the parsed records. The source's
`users.forEach(async (user) => ...)` launches each record's pipeline
without awaiting it; this embedding serializes the records in roster
order (one admissible schedule). Each iteration's outcome is discarded,
as `forEach` discards the callback's promise. -/
def forEachUsers (f : List String → M Unit) : List (List String) → M Unit
  | [] => pure ()
  | u :: us => do
    let _ ← f u
    forEachUsers f us

/-- Parsing of the input file (main.ts:17-18): split the contents on
newlines, then each line on commas. -/
def parseUsers (content : String) : List (List String) :=
  (jsSplit content '\n').map (fun line => jsSplit line ',')

/-- `makeProjects` (main.ts:15-77): parse the roster, resolve the shared
organization identifier and template descriptor (reading
`GITHUB_ORGANIZATION` and `GITHUB_PROJECT_TEMPLATE_NUMBER` with the
`|| "undefined"` fallback), then run the per-record loop. The input file's
contents stand in for the `inputfile` path read by
`Deno.readTextFileSync`. -/
def makeProjects (inputfileContent : String) : M Unit := do
  let users := parseUsers inputfileContent
  let env ← M.readEnv
  let organization := jsOr env.githubOrganization "undefined"
  let organizationId ← getOrganizationId organization
  M.log ("Using organization_id: " ++ jsInterp organizationId)
  let templateNumber := jsOr env.githubProjectTemplateNumber "undefined"
  let templateInfo ← getTemplateProjectId organization templateNumber
  M.log ("Using template_id: " ++ jsInterp templateInfo.1 ++ " with name: "
    ++ jsInterp templateInfo.2)
  forEachUsers (processUser organization organizationId templateInfo.1) users

/-! ### Platform-side association model

The GitHub platform itself is outside the repository; the following minimal
model of project/repository association captures the behaviour the spec and
the source comments document for the three mutations that can touch it
(spec §4.3-§4.4, main.ts:44-50): `createProjectV2` creates a project
already linked to the given repository, `copyProjectV2` creates a project
with no repository association, and `linkProjectV2ToRepository` adds an
association; queries change nothing. -/

/-- A project board as the platform tracks it: identifier, title, owner and
the repositories it is linked to. -/
structure ProjectRec where
  id : String
  title : String
  owner : String
  linkedRepos : List String
deriving DecidableEq

/-- Effect of one GraphQL call on the platform's project store. `newId` is
the identifier the platform assigns to a project created by this call (it
is unused for calls that create nothing). -/
def applyCall (st : List ProjectRec) (newId : String) : GraphQLCall → List ProjectRec
  | GraphQLCall.createProjectV2 title ownerId repositoryId =>
    { id := newId, title := title, owner := ownerId, linkedRepos := [repositoryId] } :: st
  | GraphQLCall.copyProjectV2 title ownerId _ =>
    { id := newId, title := title, owner := ownerId, linkedRepos := [] } :: st
  | GraphQLCall.linkProjectV2ToRepository projectId repositoryId =>
    st.map (fun p =>
      if p.id = projectId then
        { id := p.id, title := p.title, owner := p.owner,
          linkedRepos := repositoryId :: p.linkedRepos }
      else p)
  | _ => st

/-- The repository associations of the project with the given identifier,
or `none` if the platform tracks no such project. -/
def projLinks (st : List ProjectRec) (id : String) : Option (List String) :=
  (st.find? (fun p => p.id == id)).map (fun p => p.linkedRepos)

/-- Whether the GraphQL text sent for a call carries a repository identifier
or name in its input: in the source only `createProjectV2` (main.ts:110),
`linkProjectV2ToRepository` (main.ts:177) and the `repository(owner:,
name:)` query (main.ts:219) do; in particular `copyProjectV2`
(main.ts:130) does not. -/
def mentionsRepository : GraphQLCall → Bool
  | GraphQLCall.createProjectV2 _ _ _ => true
  | GraphQLCall.linkProjectV2ToRepository _ _ => true
  | GraphQLCall.repositoryQuery _ _ => true
  | _ => false

/-! ### Run-characterization lemmas -/

/-- The fetch URL every request of a run uses (main.ts:266). -/
def urlOf (env : Env) : String := jsOr env.githubApiUrl "undefined"

/-- The `Authorization` header every request of a run carries (main.ts:271). -/
def authOf (env : Env) : String := "Bearer " ++ jsInterpOpt env.githubToken

/-- The request `githubGraphQuery` issues for a call under a given
environment. -/
def mkRequest (env : Env) (c : GraphQLCall) : HttpRequest :=
  { url := urlOf env, authorization := authOf env, call := c }

theorem run_pure {α : Type} (a : α) (env : Env) (o : Oracle) :
    (Pure.pure a : M α) env o = ([], [], Except.ok a) := rfl

theorem run_bind {α β : Type} (x : M α) (f : α → M β) (env : Env) (o : Oracle) :
    (x >>= f) env o =
      match x env o with
      | (c1, l1, Except.error e) => (c1, l1, Except.error e)
      | (c1, l1, Except.ok a) =>
        match f a env o with
        | (c2, l2, r2) => (c1 ++ c2, l1 ++ l2, r2) := rfl

theorem githubGraphQuery_run (q : GraphQLCall) (env : Env) (o : Oracle) :
    githubGraphQuery q env o = ([mkRequest env q], [], Except.ok (o q)) := rfl

theorem getOrganizationId_run (organization : String) (env : Env) (o : Oracle) :
    getOrganizationId organization env o =
      ([mkRequest env (GraphQLCall.organizationIdQuery organization)], [],
       derefChain (o (GraphQLCall.organizationIdQuery organization))
         ["data", "organization", "id"]) := rfl

theorem getUserId_run (username : String) (env : Env) (o : Oracle) :
    getUserId username env o =
      ([mkRequest env (GraphQLCall.userQuery username)], [],
       derefChain (o (GraphQLCall.userQuery username)) ["data", "user", "id"]) := rfl

theorem getRepository_run (organization repository : String) (env : Env) (o : Oracle) :
    getRepository organization repository env o =
      ([mkRequest env (GraphQLCall.repositoryQuery organization repository)], [],
       derefChain (o (GraphQLCall.repositoryQuery organization repository))
         ["data", "repository", "id"]) := rfl

/-- Outcome of `getTemplateProjectId` on a given response body: the two
dereference chains of main.ts:97, in order. -/
def templateResult (r : JsValue) : Except JsErr (JsValue × JsValue) :=
  match derefChain r ["data", "organization", "projectV2", "id"] with
  | Except.error e => Except.error e
  | Except.ok i =>
    match derefChain r ["data", "organization", "projectV2", "title"] with
    | Except.error e => Except.error e
    | Except.ok t => Except.ok (i, t)

theorem getTemplateProjectId_run (organization projectNumber : String)
    (env : Env) (o : Oracle) :
    getTemplateProjectId organization projectNumber env o =
      ([mkRequest env (GraphQLCall.organizationProjectV2Query organization projectNumber)],
       ["Getting template project id for project number: " ++ projectNumber],
       templateResult (o (GraphQLCall.organizationProjectV2Query organization projectNumber))) := by
  unfold getTemplateProjectId templateResult
  cases h1 : derefChain (o (GraphQLCall.organizationProjectV2Query organization projectNumber))
      ["data", "organization", "projectV2", "id"] with
  | error e => simp [run_bind, M.bind, M.pure, run_pure, M.log, githubGraphQuery_run, M.liftExcept, h1]
  | ok i =>
    cases h2 : derefChain (o (GraphQLCall.organizationProjectV2Query organization projectNumber))
        ["data", "organization", "projectV2", "title"] with
    | error e => simp [run_bind, M.bind, M.pure, run_pure, M.log, githubGraphQuery_run, M.liftExcept, h1, h2]
    | ok t => simp [run_bind, M.bind, M.pure, run_pure, M.log, githubGraphQuery_run, M.liftExcept, h1, h2]

theorem createProject_run (title owner repository : String) (env : Env) (o : Oracle) :
    createProject title owner repository env o =
      ([mkRequest env (GraphQLCall.createProjectV2 title owner repository)], [],
       derefChain (o (GraphQLCall.createProjectV2 title owner repository))
         ["data", "createProjectV2", "projectV2", "id"]) := rfl

theorem copyProject_run (title owner templateId : String) (env : Env) (o : Oracle) :
    copyProject title owner templateId env o =
      ([mkRequest env (GraphQLCall.copyProjectV2 title owner templateId)], [],
       derefChain (o (GraphQLCall.copyProjectV2 title owner templateId))
         ["data", "copyProjectV2", "projectV2", "id"]) := rfl

theorem linkProjectToRepository_run (project repository : String) (env : Env) (o : Oracle) :
    linkProjectToRepository project repository env o =
      ([mkRequest env (GraphQLCall.linkProjectV2ToRepository project repository)], [],
       derefChain (o (GraphQLCall.linkProjectV2ToRepository project repository))
         ["data", "linkProjectV2ToRepository", "repository", "id"]) := rfl

theorem addCollaboratorToProject_run (project user : String) (env : Env) (o : Oracle) :
    addCollaboratorToProject project user env o =
      ([mkRequest env (GraphQLCall.updateProjectV2Collaborators project "ADMIN" user)], [],
       derefChain (o (GraphQLCall.updateProjectV2Collaborators project "ADMIN" user))
         ["data", "updateProjectV2Collaborators", "collaborators", "totalCount"]) := rfl

/-- Outcome of `findProject` on a given response body: dereference the
nodes, then scan them client-side. -/
def findProjectResult (title organization : String) (r : JsValue) : Except JsErr JsValue :=
  match derefChain r ["data", "organization", "projectsV2", "nodes"] with
  | Except.error e => Except.error e
  | Except.ok (JsValue.arr projects) => scanProjects title organization projects
  | Except.ok _ => Except.error (JsErr.typeError "Symbol.iterator")

theorem findProject_run (title organization : String) (env : Env) (o : Oracle) :
    findProject title organization env o =
      ([mkRequest env (GraphQLCall.projectsV2Query organization 100 ("is:open " ++ title))],
       [],
       findProjectResult title organization
         (o (GraphQLCall.projectsV2Query organization 100 ("is:open " ++ title)))) := by
  unfold findProject findProjectResult
  cases h1 : derefChain (o (GraphQLCall.projectsV2Query organization 100 ("is:open " ++ title)))
      ["data", "organization", "projectsV2", "nodes"] with
  | error e => simp [run_bind, M.bind, githubGraphQuery_run, M.liftExcept, h1]
  | ok nodes =>
    cases nodes <;>
      simp [run_bind, M.bind, githubGraphQuery_run, M.liftExcept, M.throwErr, h1]

theorem processUser_run (organization : String) (organizationId templateId : JsValue)
    (user : List String) (env : Env) (o : Oracle) :
    processUser organization organizationId templateId user env o =
      (callsOf (recordPipeline organization organizationId templateId user) env o,
       ("Creating project for " ++ jsInterpOpt (user.get? 0)) ::
         (logsOf (recordPipeline organization organizationId templateId user) env o ++
           (match resultOf (recordPipeline organization organizationId templateId user) env o with
            | Except.ok _ => []
            | Except.error e =>
              ["\tError creating project for " ++ jsInterpOpt (user.get? 0), jsErrString e])),
       Except.ok ()) := by
  unfold processUser
  rcases h : recordPipeline organization organizationId templateId user env o with ⟨cs, ls, r⟩
  cases r with
  | ok a =>
    simp [run_bind, M.bind, M.pure, run_pure, M.log, M.tryCatch, callsOf, logsOf, resultOf, h]
  | error e =>
    simp [run_bind, M.bind, M.pure, run_pure, M.log, M.tryCatch, callsOf, logsOf, resultOf, h]

/-- The per-record iteration never propagates a failure: every error is
swallowed by the catch block. -/
theorem processUser_ok (organization : String) (organizationId templateId : JsValue)
    (user : List String) (env : Env) (o : Oracle) :
    resultOf (processUser organization organizationId templateId user) env o =
      Except.ok () := by
  rw [resultOf, processUser_run]

theorem forEachUsers_run (f : List String → M Unit) (env : Env) (o : Oracle)
    (hok : ∀ u, resultOf (f u) env o = Except.ok ()) :
    ∀ us : List (List String),
      forEachUsers f us env o =
        ((us.map (fun u => callsOf (f u) env o)).flatten,
         (us.map (fun u => logsOf (f u) env o)).flatten, Except.ok ())
  | [] => by simp [forEachUsers, run_pure]
  | u :: us => by
    have ih := forEachUsers_run f env o hok us
    rcases hfu : f u env o with ⟨cs, ls, r⟩
    have hr : r = Except.ok () := by
      have h2 := hok u
      rw [resultOf, hfu] at h2
      exact h2
    subst hr
    simp [forEachUsers, run_bind, M.bind, hfu, ih, callsOf, logsOf]

/-- Full characterization of a batch run once the two shared resolutions
succeed: the traces are the shared preludes followed by each record's own
section, one per roster record in order, and the run as a whole succeeds. -/
theorem makeProjects_run (content : String) (env : Env) (o : Oracle)
    (cs1 cs2 : List HttpRequest) (ls1 ls2 : List String)
    (oid : JsValue) (ti : JsValue × JsValue)
    (horg : getOrganizationId (jsOr env.githubOrganization "undefined") env o =
      (cs1, ls1, Except.ok oid))
    (htpl : getTemplateProjectId (jsOr env.githubOrganization "undefined")
        (jsOr env.githubProjectTemplateNumber "undefined") env o =
      (cs2, ls2, Except.ok ti)) :
    makeProjects content env o =
      (cs1 ++ cs2 ++ ((parseUsers content).map (fun u =>
          callsOf (processUser (jsOr env.githubOrganization "undefined") oid ti.1 u) env o)).flatten,
       ls1 ++ ("Using organization_id: " ++ jsInterp oid) :: (ls2 ++
         ("Using template_id: " ++ jsInterp ti.1 ++ " with name: " ++ jsInterp ti.2) ::
         ((parseUsers content).map (fun u =>
           logsOf (processUser (jsOr env.githubOrganization "undefined") oid ti.1 u) env o)).flatten),
       Except.ok ()) := by
  have hfe := forEachUsers_run
    (processUser (jsOr env.githubOrganization "undefined") oid ti.1) env o
    (fun u => processUser_ok _ _ _ u env o) (parseUsers content)
  unfold makeProjects
  simp [run_bind, M.bind, M.readEnv, M.log, horg, htpl, hfe]

/-! ### Parsing lemmas -/

theorem splitListOn_ne_nil (sep : Char) (l : List Char) : splitListOn sep l ≠ [] := by
  cases l with
  | nil => simp [splitListOn]
  | cons c cs =>
    simp only [splitListOn]
    split <;> simp

theorem headD_append_of_ne_nil {α : Type} (xs : List α) (y d : α) (h : xs ≠ []) :
    (xs ++ [y]).headD d = xs.headD d := by
  cases xs <;> simp_all

theorem tail_append_of_ne_nil {α : Type} (xs : List α) (y : α) (h : xs ≠ []) :
    (xs ++ [y]).tail = xs.tail ++ [y] := by
  cases xs <;> simp_all

/-- Appending a final separator adds exactly one trailing empty group to a
split. -/
theorem splitListOn_append_sep (sep : Char) (cs : List Char) :
    splitListOn sep (cs ++ [sep]) = splitListOn sep cs ++ [[]] := by
  induction cs with
  | nil => simp [splitListOn]
  | cons c cs ih =>
    by_cases hc : c = sep
    · simp [splitListOn, ih, hc]
    · simp only [List.cons_append, splitListOn, List.append_eq, ih, hc, if_false]
      rw [headD_append_of_ne_nil _ _ _ (splitListOn_ne_nil sep cs),
        tail_append_of_ne_nil _ _ (splitListOn_ne_nil sep cs)]

/-- An input whose last line is blank parses to the records of the input
without the final newline, followed by one empty record `[""]`. -/
theorem parseUsers_append_newline (cs : List Char) :
    parseUsers (String.mk (cs ++ ['\n'])) = parseUsers (String.mk cs) ++ [[""]] := by
  simp [parseUsers, jsSplit, splitListOn_append_sep]
  rfl

/-! ### Envelope helpers and concrete test fixtures -/

/-- A well-formed response envelope `{data: {k1: {k2: v}}}`. -/
def envelope2 (k1 k2 : String) (v : JsValue) : JsValue :=
  JsValue.obj [("data", JsValue.obj [(k1, JsValue.obj [(k2, v)])])]

/-- A well-formed response envelope `{data: {k1: {k2: {k3: v}}}}`. -/
def envelope3 (k1 k2 k3 : String) (v : JsValue) : JsValue :=
  JsValue.obj [("data", JsValue.obj [(k1, JsValue.obj [(k2, JsValue.obj [(k3, v)])])])]

/-- A well-formed `getTemplateProjectId` response envelope. -/
def templateEnvelope (i t : JsValue) : JsValue :=
  JsValue.obj [("data", JsValue.obj [("organization", JsValue.obj [("projectV2",
    JsValue.obj [("id", i), ("title", t)])])])]

theorem derefChain_envelope2 (k1 k2 : String) (v : JsValue) :
    derefChain (envelope2 k1 k2 v) ["data", k1, k2] = Except.ok v := by
  simp [envelope2, derefChain, jsGet, List.lookup]

theorem derefChain_envelope3 (k1 k2 k3 : String) (v : JsValue) :
    derefChain (envelope3 k1 k2 k3 v) ["data", k1, k2, k3] = Except.ok v := by
  simp [envelope3, derefChain, jsGet, List.lookup]

theorem templateResult_envelope (i t : JsValue) :
    templateResult (templateEnvelope i t) = Except.ok (i, t) := by
  simp [templateResult, templateEnvelope, derefChain, jsGet, List.lookup]

/-- An environment with every configuration variable present. -/
def testEnv : Env :=
  { githubApiUrl := some "https://api.github.com/graphql",
    githubToken := some "TOKEN",
    githubOrganization := some "ksu-cs-projects-2025-2026",
    githubAssignmentPrefixVar := some "spring-2026",
    githubProjectTemplateNumber := some "1" }

/-- An environment with every configuration variable absent. -/
def allNoneEnv : Env :=
  { githubApiUrl := none, githubToken := none, githubOrganization := none,
    githubAssignmentPrefixVar := none, githubProjectTemplateNumber := none }

/-- A platform whose every entity resolves: each call is answered with a
well-formed envelope carrying a fixed identifier. -/
def goodOracle : Oracle
  | GraphQLCall.organizationIdQuery _ => envelope2 "organization" "id" (JsValue.str "ORG_ID")
  | GraphQLCall.userQuery _ => envelope2 "user" "id" (JsValue.str "USER_ID")
  | GraphQLCall.repositoryQuery _ _ => envelope2 "repository" "id" (JsValue.str "REPO_ID")
  | GraphQLCall.organizationProjectV2Query _ _ =>
    templateEnvelope (JsValue.str "TEMPLATE_ID") (JsValue.str "Template")
  | GraphQLCall.projectsV2Query _ _ _ =>
    envelope3 "organization" "projectsV2" "nodes" (JsValue.arr [])
  | GraphQLCall.createProjectV2 _ _ _ =>
    envelope3 "createProjectV2" "projectV2" "id" (JsValue.str "NEW_PROJECT_ID")
  | GraphQLCall.copyProjectV2 _ _ _ =>
    envelope3 "copyProjectV2" "projectV2" "id" (JsValue.str "PROJECT_ID")
  | GraphQLCall.linkProjectV2ToRepository _ _ =>
    envelope3 "linkProjectV2ToRepository" "repository" "id" (JsValue.str "REPO_ID")
  | GraphQLCall.updateProjectV2Collaborators _ _ _ =>
    envelope3 "updateProjectV2Collaborators" "collaborators" "totalCount" (JsValue.str "1")

/-! ### Client-side scan lemmas (`findProject`) -/

/-- If the scan returns an identifier, some node of the page has exactly the
target title, and the identifier is that node's `id`. -/
theorem scanProjects_ok_mem (title organization : String) :
    ∀ (l : List JsValue) (v : JsValue),
      scanProjects title organization l = Except.ok v →
      ∃ p ∈ l, jsGet p "title" = Except.ok (JsValue.str title) ∧
        jsGet p "id" = Except.ok v
  | [], v => by simp [scanProjects]
  | project :: rest, v => by
    intro h
    rw [scanProjects] at h
    cases ht : jsGet project "title" with
    | error e => exact Except.noConfusion (ht ▸ h)
    | ok t =>
      simp only [ht] at h
      by_cases heq : jsStrictEqStr t title = true
      · rw [if_pos heq] at h
        have ht2 : t = JsValue.str title := by
          cases t <;> simp [jsStrictEqStr] at heq
          subst heq; rfl
        subst ht2
        exact ⟨project, List.mem_cons_self _ _, ht, h⟩
      · rw [if_neg heq] at h
        obtain ⟨p, hp, h1, h2⟩ := scanProjects_ok_mem title organization rest v h
        exact ⟨p, List.mem_cons_of_mem _ hp, h1, h2⟩

/-- If no node of the page has exactly the target title (and each node's
title is readable), the scan throws the not-found `Error`. -/
theorem scanProjects_not_found (title organization : String) :
    ∀ l : List JsValue,
      (∀ p ∈ l, ∃ t, jsGet p "title" = Except.ok t ∧ jsStrictEqStr t title = false) →
      scanProjects title organization l =
        Except.error (JsErr.errorMsg
          ("Project with title \"" ++ title ++ "\" not found in organization \""
            ++ organization ++ "\"."))
  | [] => by intro h; rfl
  | project :: rest => by
    intro h
    obtain ⟨t, ht, hne⟩ := h project (List.mem_cons_self _ _)
    rw [scanProjects]
    simp only [ht]
    rw [if_neg (by simp [hne])]
    exact scanProjects_not_found title organization rest
      (fun p hp => h p (List.mem_cons_of_mem _ hp))

/-- The scan returns the identifier of the first exact match, whatever
nodes follow it. -/
theorem scanProjects_first_match (title organization : String) (p v : JsValue)
    (hp : jsGet p "title" = Except.ok (JsValue.str title))
    (hid : jsGet p "id" = Except.ok v) :
    ∀ l1 : List JsValue,
      (∀ q ∈ l1, ∃ t, jsGet q "title" = Except.ok t ∧ jsStrictEqStr t title = false) →
      ∀ l2 : List JsValue,
        scanProjects title organization (l1 ++ p :: l2) = Except.ok v
  | [] => by
    intro _ l2
    rw [List.nil_append, scanProjects]
    simp only [hp]
    rw [if_pos (by simp [jsStrictEqStr]), hid]
  | q :: l1 => by
    intro h l2
    obtain ⟨t, ht, hne⟩ := h q (List.mem_cons_self _ _)
    rw [List.cons_append, scanProjects]
    simp only [ht]
    rw [if_neg (by simp [hne])]
    exact scanProjects_first_match title organization p v hp hid l1
      (fun q2 hq2 => h q2 (List.mem_cons_of_mem _ hq2)) l2

/-! ### Claims -/

/-- C2: for every target title and every page of projects the platform
returns, `findProject` issues exactly one request — the first page of at
most 100 results, never a second page; when it returns a project
identifier, some node of the returned page has a title exactly equal to
the target (so a project titled "bob2" never satisfies a search for "bob")
and the identifier is that node's; and whenever the page parses to nodes
none of which matches the target exactly, it raises the not-found `Error`
instead of silently returning an empty result. -/
theorem claim_C2_findProject_exact_match (env : Env) (o : Oracle)
    (title organization : String) :
    (callsOf (findProject title organization) env o).map HttpRequest.call =
      [GraphQLCall.projectsV2Query organization 100 ("is:open " ++ title)] ∧
    (∀ v : JsValue,
      resultOf (findProject title organization) env o = Except.ok v →
      ∃ l : List JsValue,
        derefChain (o (GraphQLCall.projectsV2Query organization 100 ("is:open " ++ title)))
            ["data", "organization", "projectsV2", "nodes"] = Except.ok (JsValue.arr l) ∧
        ∃ p ∈ l, jsGet p "title" = Except.ok (JsValue.str title) ∧
          jsGet p "id" = Except.ok v) ∧
    (∀ l : List JsValue,
      derefChain (o (GraphQLCall.projectsV2Query organization 100 ("is:open " ++ title)))
          ["data", "organization", "projectsV2", "nodes"] = Except.ok (JsValue.arr l) →
      (∀ p ∈ l, ∃ t, jsGet p "title" = Except.ok t ∧ jsStrictEqStr t title = false) →
      resultOf (findProject title organization) env o =
        Except.error (JsErr.errorMsg
          ("Project with title \"" ++ title ++ "\" not found in organization \""
            ++ organization ++ "\"."))) := by
  refine ⟨?_, ?_, ?_⟩
  · rw [callsOf, findProject_run]
    rfl
  · intro v hv
    rw [resultOf, findProject_run] at hv
    simp only at hv
    unfold findProjectResult at hv
    cases hd : derefChain (o (GraphQLCall.projectsV2Query organization 100 ("is:open " ++ title)))
        ["data", "organization", "projectsV2", "nodes"] with
    | error e => rw [hd] at hv; exact Except.noConfusion hv
    | ok nodes =>
      rw [hd] at hv
      cases nodes with
      | arr l =>
        obtain ⟨p, hp, h1, h2⟩ := scanProjects_ok_mem title organization l v hv
        exact ⟨l, rfl, p, hp, h1, h2⟩
      | undefined => exact Except.noConfusion hv
      | null => exact Except.noConfusion hv
      | str s => exact Except.noConfusion hv
      | num n => exact Except.noConfusion hv
      | bool b => exact Except.noConfusion hv
      | obj fs => exact Except.noConfusion hv
  · intro l hd hnone
    rw [resultOf, findProject_run]
    simp only
    unfold findProjectResult
    rw [hd]
    exact scanProjects_not_found title organization l hnone

/-- A platform whose project page for any search contains exactly one
project, titled "bob2". -/
def bob2Oracle : Oracle
  | GraphQLCall.projectsV2Query _ _ _ =>
    envelope3 "organization" "projectsV2" "nodes"
      (JsValue.arr [JsValue.obj [("id", JsValue.str "P1"), ("title", JsValue.str "bob2")]])
  | c => goodOracle c

/-- Witness for C2: on a page whose only project is titled "bob2", a search
for "bob" issues one first-page request and throws the not-found error. -/
theorem claim_C2_findProject_exact_match_witness :
    (callsOf (findProject "bob" "testorg") testEnv bob2Oracle).map HttpRequest.call =
      [GraphQLCall.projectsV2Query "testorg" 100 ("is:open " ++ "bob")] ∧
    resultOf (findProject "bob" "testorg") testEnv bob2Oracle =
      Except.error (JsErr.errorMsg
        ("Project with title \"" ++ "bob" ++ "\" not found in organization \""
          ++ "testorg" ++ "\".")) := by
  have h := claim_C2_findProject_exact_match testEnv bob2Oracle "bob" "testorg"
  refine ⟨h.1, h.2.2
    [JsValue.obj [("id", JsValue.str "P1"), ("title", JsValue.str "bob2")]] rfl ?_⟩
  intro p hp
  simp only [List.mem_singleton] at hp
  subst hp
  exact ⟨JsValue.str "bob2", rfl, rfl⟩

/-- C10: when the returned page contains more than one project whose title
exactly equals the target, `findProject` returns the identifier of the
first such project in the order the platform returned the page, ignoring
all later exact matches (the nodes `l2` after the first match are
unconstrained and may contain further exact matches). -/
theorem claim_C10_first_exact_match (env : Env) (o : Oracle)
    (title organization : String) (l1 l2 : List JsValue) (p v : JsValue)
    (hnodes : derefChain (o (GraphQLCall.projectsV2Query organization 100 ("is:open " ++ title)))
        ["data", "organization", "projectsV2", "nodes"] =
      Except.ok (JsValue.arr (l1 ++ p :: l2)))
    (hbefore : ∀ q ∈ l1, ∃ t, jsGet q "title" = Except.ok t ∧ jsStrictEqStr t title = false)
    (hp : jsGet p "title" = Except.ok (JsValue.str title))
    (hid : jsGet p "id" = Except.ok v) :
    resultOf (findProject title organization) env o = Except.ok v := by
  rw [resultOf, findProject_run]
  simp only
  unfold findProjectResult
  rw [hnodes]
  exact scanProjects_first_match title organization p v hp hid l1 hbefore l2

/-- A platform whose project page contains a non-match followed by two
projects titled exactly "bob" with different identifiers. -/
def multiMatchOracle : Oracle
  | GraphQLCall.projectsV2Query _ _ _ =>
    envelope3 "organization" "projectsV2" "nodes" (JsValue.arr
      [JsValue.obj [("id", JsValue.str "P1"), ("title", JsValue.str "bob2")],
       JsValue.obj [("id", JsValue.str "P2"), ("title", JsValue.str "bob")],
       JsValue.obj [("id", JsValue.str "P3"), ("title", JsValue.str "bob")]])
  | c => goodOracle c

/-- Witness for C10: with exact matches at positions 2 and 3 of the page,
the identifier returned is that of the first ("P2", not "P3"). -/
theorem claim_C10_first_exact_match_witness :
    resultOf (findProject "bob" "testorg") testEnv multiMatchOracle =
      Except.ok (JsValue.str "P2") := by
  refine claim_C10_first_exact_match testEnv multiMatchOracle "bob" "testorg"
    [JsValue.obj [("id", JsValue.str "P1"), ("title", JsValue.str "bob2")]]
    [JsValue.obj [("id", JsValue.str "P3"), ("title", JsValue.str "bob")]]
    (JsValue.obj [("id", JsValue.str "P2"), ("title", JsValue.str "bob")])
    (JsValue.str "P2") rfl ?_ rfl rfl
  intro q hq
  simp only [List.mem_singleton] at hq
  subst hq
  exact ⟨JsValue.str "bob2", rfl, rfl⟩

/-- C3: for a well-formed two-field record whose five pipeline steps are
answered by well-formed envelopes, the per-record pipeline issues, in
order, exactly one call each to user resolution, repository resolution,
the copy strategy (the single statically configured acquisition — no
`createProjectV2` and no `projectsV2Query` appears), then linking, then
collaborator addition; the repository name requested is the configured
prefix, "-", then the record's username. -/
theorem claim_C3_pipeline_order (env : Env) (o : Oracle)
    (label username uid rid pid lrid cc oid tid organization : String)
    (h1 : o (GraphQLCall.userQuery username) = envelope2 "user" "id" (JsValue.str uid))
    (h2 : o (GraphQLCall.repositoryQuery organization
        (jsInterpOpt env.githubAssignmentPrefixVar ++ "-" ++ username)) =
      envelope2 "repository" "id" (JsValue.str rid))
    (h3 : o (GraphQLCall.copyProjectV2 label oid tid) =
      envelope3 "copyProjectV2" "projectV2" "id" (JsValue.str pid))
    (h4 : o (GraphQLCall.linkProjectV2ToRepository pid rid) =
      envelope3 "linkProjectV2ToRepository" "repository" "id" (JsValue.str lrid))
    (h5 : o (GraphQLCall.updateProjectV2Collaborators pid "ADMIN" uid) =
      envelope3 "updateProjectV2Collaborators" "collaborators" "totalCount" (JsValue.str cc)) :
    (callsOf (recordPipeline organization (JsValue.str oid) (JsValue.str tid)
        [label, username]) env o).map HttpRequest.call =
      [GraphQLCall.userQuery username,
       GraphQLCall.repositoryQuery organization
         (jsInterpOpt env.githubAssignmentPrefixVar ++ "-" ++ username),
       GraphQLCall.copyProjectV2 label oid tid,
       GraphQLCall.linkProjectV2ToRepository pid rid,
       GraphQLCall.updateProjectV2Collaborators pid "ADMIN" uid] ∧
    resultOf (recordPipeline organization (JsValue.str oid) (JsValue.str tid)
        [label, username]) env o = Except.ok () := by
  unfold recordPipeline
  have h2b := h2
  simp only [jsInterpOpt] at h2b
  constructor <;>
    simp [callsOf, resultOf, run_bind, M.bind, M.pure, run_pure, M.log, M.readEnv,
      getUserId_run, getRepository_run, copyProject_run, linkProjectToRepository_run,
      addCollaboratorToProject_run, h1, h2b, h3, h4, h5,
      derefChain_envelope2, derefChain_envelope3, jsInterp, jsInterpOpt, mkRequest]

/-- Witness for C3: record ("russfeld","russfeld-student") with prefix
"spring-2026" runs the five steps in order and requests repository
"spring-2026-russfeld-student". -/
theorem claim_C3_pipeline_order_witness :
    (callsOf (recordPipeline "ksu-cs-projects-2025-2026" (JsValue.str "ORG_ID")
        (JsValue.str "TEMPLATE_ID") ["russfeld", "russfeld-student"]) testEnv goodOracle).map
        HttpRequest.call =
      [GraphQLCall.userQuery "russfeld-student",
       GraphQLCall.repositoryQuery "ksu-cs-projects-2025-2026" "spring-2026-russfeld-student",
       GraphQLCall.copyProjectV2 "russfeld" "ORG_ID" "TEMPLATE_ID",
       GraphQLCall.linkProjectV2ToRepository "PROJECT_ID" "REPO_ID",
       GraphQLCall.updateProjectV2Collaborators "PROJECT_ID" "ADMIN" "USER_ID"] ∧
    resultOf (recordPipeline "ksu-cs-projects-2025-2026" (JsValue.str "ORG_ID")
        (JsValue.str "TEMPLATE_ID") ["russfeld", "russfeld-student"]) testEnv goodOracle =
      Except.ok () :=
  claim_C3_pipeline_order testEnv goodOracle "russfeld" "russfeld-student" "USER_ID"
    "REPO_ID" "PROJECT_ID" "REPO_ID" "1" "ORG_ID" "TEMPLATE_ID" "ksu-cs-projects-2025-2026"
    rfl rfl rfl rfl rfl

/-- `List.find?` by identifier commutes with mapping an
identifier-preserving function over the store. -/
theorem find_map_id_preserve (f : ProjectRec → ProjectRec)
    (hf : ∀ q, (f q).id = q.id) (p : String) :
    ∀ st : List ProjectRec,
      List.find? (fun q => q.id == p) (st.map f) =
        Option.map f (List.find? (fun q => q.id == p) st)
  | [] => rfl
  | q :: st => by
    simp only [List.map_cons, List.find?, hf q]
    cases hq : (q.id == p) with
    | true => simp
    | false => simpa using find_map_id_preserve f hf p st

/-- A link mutation for a different project identifier leaves a project's
associations unchanged. -/
theorem projLinks_link_other (st : List ProjectRec) (newId p p2 r : String)
    (hne : p2 ≠ p) :
    projLinks (applyCall st newId (GraphQLCall.linkProjectV2ToRepository p2 r)) p =
      projLinks st p := by
  have hf : ∀ q : ProjectRec,
      ((if q.id = p2 then (⟨q.id, q.title, q.owner, r :: q.linkedRepos⟩ : ProjectRec)
        else q)).id = q.id := by
    intro q
    by_cases h : q.id = p2 <;> simp [h]
  simp only [applyCall, projLinks]
  rw [find_map_id_preserve _ hf p st]
  cases hfind : List.find? (fun q => q.id == p) st with
  | none => rfl
  | some q =>
    have hqp : q.id = p := by
      have := List.find?_some hfind
      simpa using this
    have hq2 : ¬q.id = p2 := by
      rw [hqp]
      exact fun h => hne h.symm
    simp [hq2]

/-- C4: the copy-from-template operation sends exactly one mutation, which
carries no repository identifier; in the platform model the project it
creates has no repository association; and no call other than an explicit
`linkProjectV2ToRepository` for that project (or a create/copy that
assigns its identifier) can change that project's association — so a
separate explicit link call is required to associate the copied project
with a repository. -/
theorem claim_C4_copy_never_links (env : Env) (o : Oracle)
    (title owner templateId newId : String) (st : List ProjectRec)
    (c : GraphQLCall) (p : String) :
    (callsOf (copyProject title owner templateId) env o).map HttpRequest.call =
      [GraphQLCall.copyProjectV2 title owner templateId] ∧
    mentionsRepository (GraphQLCall.copyProjectV2 title owner templateId) = false ∧
    projLinks (applyCall st newId (GraphQLCall.copyProjectV2 title owner templateId))
      newId = some [] ∧
    ((∀ r, c ≠ GraphQLCall.linkProjectV2ToRepository p r) →
     (∀ t2 o2 r2, c = GraphQLCall.createProjectV2 t2 o2 r2 → newId ≠ p) →
     (∀ t2 o2 i2, c = GraphQLCall.copyProjectV2 t2 o2 i2 → newId ≠ p) →
     projLinks (applyCall st newId c) p = projLinks st p) := by
  refine ⟨?_, rfl, ?_, ?_⟩
  · rw [callsOf, copyProject_run]
    rfl
  · simp [applyCall, projLinks, List.find?]
  · intro hlink hcreate hcopy
    cases c with
    | linkProjectV2ToRepository p2 r =>
      have hne : p2 ≠ p := by
        intro hcontra
        exact hlink r (by rw [hcontra])
      exact projLinks_link_other st newId p p2 r hne
    | createProjectV2 t2 o2 r2 =>
      have hne : (newId == p) = false := by simp [hcreate t2 o2 r2 rfl]
      simp [applyCall, projLinks, List.find?, hne]
    | copyProjectV2 t2 o2 i2 =>
      have hne : (newId == p) = false := by simp [hcopy t2 o2 i2 rfl]
      simp [applyCall, projLinks, List.find?, hne]
    | organizationIdQuery a => rfl
    | userQuery a => rfl
    | repositoryQuery a b => rfl
    | organizationProjectV2Query a b => rfl
    | projectsV2Query a b d => rfl
    | updateProjectV2Collaborators a b d => rfl

/-- Witness for C4: a concrete copy mutation carries no repository, the
copied project "NEW" starts with no association, and an unrelated query
leaves it unassociated. -/
theorem claim_C4_copy_never_links_witness :
    (callsOf (copyProject "russfeld" "ORG_ID" "TEMPLATE_ID") testEnv goodOracle).map
        HttpRequest.call =
      [GraphQLCall.copyProjectV2 "russfeld" "ORG_ID" "TEMPLATE_ID"] ∧
    mentionsRepository (GraphQLCall.copyProjectV2 "russfeld" "ORG_ID" "TEMPLATE_ID") = false ∧
    projLinks (applyCall [] "NEW" (GraphQLCall.copyProjectV2 "russfeld" "ORG_ID" "TEMPLATE_ID"))
      "NEW" = some [] ∧
    projLinks (applyCall [⟨"NEW", "russfeld", "ORG_ID", []⟩] "X"
        (GraphQLCall.userQuery "someone")) "NEW" =
      projLinks [⟨"NEW", "russfeld", "ORG_ID", []⟩] "NEW" := by
  have h := claim_C4_copy_never_links testEnv goodOracle "russfeld" "ORG_ID" "TEMPLATE_ID"
    "NEW" [] (GraphQLCall.userQuery "someone") "NEW"
  have h2 := claim_C4_copy_never_links testEnv goodOracle "russfeld" "ORG_ID" "TEMPLATE_ID"
    "X" [⟨"NEW", "russfeld", "ORG_ID", []⟩] (GraphQLCall.userQuery "someone") "NEW"
  exact ⟨h.1, h.2.1, h.2.2.1,
    h2.2.2.2 (fun r hr => GraphQLCall.noConfusion hr)
      (fun t2 o2 r2 hr => GraphQLCall.noConfusion hr)
      (fun t2 o2 i2 hr => GraphQLCall.noConfusion hr)⟩

/-- Splitting a dereference chain: the suffix is evaluated on the value the
prefix reaches, and a prefix failure is final. -/
theorem derefChain_append (ks1 : List String) :
    ∀ (v : JsValue) (ks2 : List String),
      derefChain v (ks1 ++ ks2) =
        match derefChain v ks1 with
        | Except.error e => Except.error e
        | Except.ok w => derefChain w ks2 := by
  induction ks1 with
  | nil => intro v ks2; rfl
  | cons k ks ih =>
    intro v ks2
    simp only [List.cons_append, derefChain]
    cases jsGet v k with
    | error e => rfl
    | ok w => exact ih w ks2

/-- The C5 oracle: the user "leafcase" resolves to an envelope whose `user`
object exists but lacks the `id` field; every other user, and every
organization, repository and template project, resolves to `null` for the
entity field. -/
def c5Oracle : Oracle
  | GraphQLCall.userQuery u =>
    if u = "leafcase" then
      JsValue.obj [("data", JsValue.obj
        [("user", JsValue.obj [("login", JsValue.str "leafcase")])])]
    else JsValue.obj [("data", JsValue.obj [("user", JsValue.null)])]
  | GraphQLCall.organizationIdQuery _ =>
    JsValue.obj [("data", JsValue.obj [("organization", JsValue.null)])]
  | GraphQLCall.repositoryQuery _ _ =>
    JsValue.obj [("data", JsValue.obj [("repository", JsValue.null)])]
  | GraphQLCall.organizationProjectV2Query _ _ =>
    JsValue.obj [("data", JsValue.obj
      [("organization", JsValue.obj [("projectV2", JsValue.null)])])]
  | _ => JsValue.null

/-- Counterexample to C5 as stated: for the envelope
`{data: {user: {login: "leafcase"}}}` — which lacks the expected nested
field `id` — `getUserId` does not propagate an error: dereferencing a
missing property of an existing object yields `undefined` in JavaScript,
so the resolver returns successfully with the `undefined` value. -/
theorem claim_C5_counterexample :
    resultOf (getUserId "leafcase") testEnv c5Oracle = Except.ok JsValue.undefined := rfl

/-- C5 as amended: each of the four resolvers propagates an error whenever
an inner object on its fixed dereference path — in particular the entity
field the platform returns as `null` when the entity does not exist or is
inaccessible — is `null`, dereferencing the null being the failure signal,
and no identifier is returned in those cases; but when only the final leaf
field is absent from an otherwise well-shaped envelope, the resolver
returns the `undefined` value without raising. -/
theorem claim_C5_amended_resolver_errors (env : Env) (o : Oracle)
    (uname org repo tn uname2 : String) (flds : List (String × JsValue))
    (h1 : derefChain (o (GraphQLCall.userQuery uname)) ["data", "user"] =
      Except.ok JsValue.null)
    (h2 : derefChain (o (GraphQLCall.organizationIdQuery org)) ["data", "organization"] =
      Except.ok JsValue.null)
    (h3 : derefChain (o (GraphQLCall.repositoryQuery org repo)) ["data", "repository"] =
      Except.ok JsValue.null)
    (h4 : derefChain (o (GraphQLCall.organizationProjectV2Query org tn))
        ["data", "organization", "projectV2"] = Except.ok JsValue.null)
    (h5 : derefChain (o (GraphQLCall.userQuery uname2)) ["data", "user"] =
      Except.ok (JsValue.obj flds))
    (h6 : List.lookup "id" flds = none) :
    resultOf (getUserId uname) env o = Except.error (JsErr.typeError "id") ∧
    resultOf (getOrganizationId org) env o = Except.error (JsErr.typeError "id") ∧
    resultOf (getRepository org repo) env o = Except.error (JsErr.typeError "id") ∧
    resultOf (getTemplateProjectId org tn) env o = Except.error (JsErr.typeError "id") ∧
    resultOf (getUserId uname2) env o = Except.ok JsValue.undefined := by
  refine ⟨?_, ?_, ?_, ?_, ?_⟩
  · rw [resultOf, getUserId_run]
    rw [show (["data", "user", "id"] : List String) = ["data", "user"] ++ ["id"] from rfl,
      derefChain_append, h1]
    rfl
  · rw [resultOf, getOrganizationId_run]
    rw [show (["data", "organization", "id"] : List String) =
        ["data", "organization"] ++ ["id"] from rfl,
      derefChain_append, h2]
    rfl
  · rw [resultOf, getRepository_run]
    rw [show (["data", "repository", "id"] : List String) =
        ["data", "repository"] ++ ["id"] from rfl,
      derefChain_append, h3]
    rfl
  · rw [resultOf, getTemplateProjectId_run]
    unfold templateResult
    rw [show (["data", "organization", "projectV2", "id"] : List String) =
        ["data", "organization", "projectV2"] ++ ["id"] from rfl,
      derefChain_append, h4]
    rfl
  · rw [resultOf, getUserId_run]
    rw [show (["data", "user", "id"] : List String) = ["data", "user"] ++ ["id"] from rfl,
      derefChain_append, h5]
    simp [derefChain, jsGet, h6]

/-- Witness for the amended C5 at the concrete `c5Oracle`: all four
resolvers fail on null entities, and the id-less `user` object yields
`undefined` without an error. -/
theorem claim_C5_amended_resolver_errors_witness :
    resultOf (getUserId "alice") testEnv c5Oracle = Except.error (JsErr.typeError "id") ∧
    resultOf (getOrganizationId "acme") testEnv c5Oracle =
      Except.error (JsErr.typeError "id") ∧
    resultOf (getRepository "acme" "acme-repo") testEnv c5Oracle =
      Except.error (JsErr.typeError "id") ∧
    resultOf (getTemplateProjectId "acme" "1") testEnv c5Oracle =
      Except.error (JsErr.typeError "id") ∧
    resultOf (getUserId "leafcase") testEnv c5Oracle = Except.ok JsValue.undefined :=
  claim_C5_amended_resolver_errors testEnv c5Oracle "alice" "acme" "acme-repo" "1"
    "leafcase" [("login", JsValue.str "leafcase")] rfl rfl rfl rfl rfl rfl

/-- C6: a failure while resolving the shared organization identifier —
or, when that succeeds, the shared template descriptor — before the
per-record loop starts aborts the entire run: `makeProjects` propagates
the error unhandled, its trace is exactly the failing resolver's trace
(so no roster record is attempted and no per-record catch fires), and no
record label is ever logged. -/
theorem claim_C6_shared_precondition_abort (env : Env) (o : Oracle) (content : String)
    (cs1 cs2 : List HttpRequest) (ls1 ls2 : List String)
    (e1 e2 : JsErr) (oid : JsValue) :
    (getOrganizationId (jsOr env.githubOrganization "undefined") env o =
        (cs1, ls1, Except.error e1) →
      makeProjects content env o = (cs1, ls1, Except.error e1)) ∧
    (getOrganizationId (jsOr env.githubOrganization "undefined") env o =
        (cs1, ls1, Except.ok oid) →
      getTemplateProjectId (jsOr env.githubOrganization "undefined")
          (jsOr env.githubProjectTemplateNumber "undefined") env o =
        (cs2, ls2, Except.error e2) →
      makeProjects content env o =
        (cs1 ++ cs2,
         ls1 ++ ("Using organization_id: " ++ jsInterp oid) :: ls2,
         Except.error e2)) := by
  constructor
  · intro horg
    unfold makeProjects
    simp [run_bind, M.bind, M.readEnv, M.log, horg]
  · intro horg htpl
    unfold makeProjects
    simp [run_bind, M.bind, M.readEnv, M.log, horg, htpl]

/-- Witness for C6: under `c5Oracle` the organization resolves to `null`,
`makeProjects` propagates the `TypeError` and its whole trace is the one
failed organization query — no record of the two-record roster was
attempted. -/
theorem claim_C6_shared_precondition_abort_witness :
    makeProjects "alice,ghost\nbob,builder" testEnv c5Oracle =
      ([mkRequest testEnv (GraphQLCall.organizationIdQuery "ksu-cs-projects-2025-2026")],
       [], Except.error (JsErr.typeError "id")) :=
  (claim_C6_shared_precondition_abort testEnv c5Oracle "alice,ghost\nbob,builder"
    [mkRequest testEnv (GraphQLCall.organizationIdQuery "ksu-cs-projects-2025-2026")]
    [] [] [] (JsErr.typeError "id") (JsErr.typeError "id") JsValue.null).1 rfl

/-- Requests of a sequenced computation: the first part's requests, then —
if it succeeded — the continuation's. -/
theorem run_bind_calls {α β : Type} (x : M α) (f : α → M β) (env : Env) (o : Oracle) :
    callsOf (x >>= f) env o =
      callsOf x env o ++
        (match resultOf x env o with
         | Except.error _ => []
         | Except.ok a => callsOf (f a) env o) := by
  rcases hx : x env o with ⟨c1, l1, r⟩
  cases r with
  | error e => simp [callsOf, resultOf, run_bind, hx]
  | ok a =>
    rcases hf : f a env o with ⟨c2, l2, r2⟩
    simp [callsOf, resultOf, run_bind, hx, hf]

/-- Sequencing after the environment read adds no requests of its own. -/
theorem calls_readEnv_bind {β : Type} (k : Env → M β) (env : Env) (o : Oracle) :
    callsOf (M.readEnv >>= k) env o = callsOf (k env) env o := rfl

/-- The head of a sequence's request list is the first part's first
request. -/
theorem head_calls_bind {α β : Type} (x : M α) (f : α → M β) (env : Env) (o : Oracle)
    (r : HttpRequest) (rs : List HttpRequest) (hx : callsOf x env o = r :: rs) :
    (callsOf (x >>= f) env o).head? = some r := by
  rw [run_bind_calls, hx]
  rfl

/-- Whatever the environment, platform and input, the batch reaches its
first request, which resolves the configured (or placeholder) organization
login. -/
theorem makeProjects_first_call (content : String) (env : Env) (o : Oracle) :
    (callsOf (makeProjects content) env o).head? =
      some (mkRequest env
        (GraphQLCall.organizationIdQuery (jsOr env.githubOrganization "undefined"))) := by
  unfold makeProjects
  rw [calls_readEnv_bind]
  exact head_calls_bind _ _ _ _ _ [] rfl

/-- The request issued under the all-absent environment: every item falls
back to the literal placeholder. -/
def placeholderRequest (c : GraphQLCall) : HttpRequest :=
  { url := "undefined", authorization := "Bearer undefined", call := c }

/-- C7: when configuration environment variables are absent the program
does not fail at startup but proceeds on literal `"undefined"`
placeholders: (i) every request the transport issues carries the
placeholder URL and the header `Bearer undefined`; (ii) for any input and
any platform, the run still reaches its first request, which resolves the
placeholder organization login `"undefined"`; (iii) a full concrete run
with every variable absent completes successfully, querying the template
number `"undefined"` and requesting the repository
`"undefined-russfeld-student"` (the missing prefix coerced into the
name). -/
theorem claim_C7_env_placeholders :
    (∀ (q : GraphQLCall) (o : Oracle),
      githubGraphQuery q allNoneEnv o = ([placeholderRequest q], [], Except.ok (o q))) ∧
    (∀ (content : String) (o : Oracle),
      (callsOf (makeProjects content) allNoneEnv o).head? =
        some (placeholderRequest (GraphQLCall.organizationIdQuery "undefined"))) ∧
    makeProjects "russfeld,russfeld-student" allNoneEnv goodOracle =
      ([placeholderRequest (GraphQLCall.organizationIdQuery "undefined"),
        placeholderRequest (GraphQLCall.organizationProjectV2Query "undefined" "undefined"),
        placeholderRequest (GraphQLCall.userQuery "russfeld-student"),
        placeholderRequest (GraphQLCall.repositoryQuery "undefined"
          "undefined-russfeld-student"),
        placeholderRequest (GraphQLCall.copyProjectV2 "russfeld" "ORG_ID" "TEMPLATE_ID"),
        placeholderRequest (GraphQLCall.linkProjectV2ToRepository "PROJECT_ID" "REPO_ID"),
        placeholderRequest (GraphQLCall.updateProjectV2Collaborators "PROJECT_ID" "ADMIN"
          "USER_ID")],
       ["Using organization_id: ORG_ID",
        "Getting template project id for project number: undefined",
        "Using template_id: TEMPLATE_ID with name: Template",
        "Creating project for russfeld",
        "\tGithub User ID for russfeld-student is USER_ID",
        "\tRepository ID for undefined-russfeld-student is REPO_ID",
        "\tFound/Created Project PROJECT_ID for russfeld",
        "\tLinked project PROJECT_ID to repository undefined-russfeld-student",
        "\tProject now has 1 collaborators"],
       Except.ok ()) := by
  refine ⟨fun q o => rfl, ?_, ?_⟩
  · intro content o
    exact makeProjects_first_call content allNoneEnv o
  · rfl

/-- C1: per-record error isolation. For any roster record of the parsed
input whose pipeline fails at any step once the shared resolutions have
succeeded: the failure is caught at the record boundary (the iteration
still returns successfully), the catch logs the record's label and the
error after whatever the pipeline logged, the record's requests are
exactly those the pipeline issued before failing (no compensating
rollback request is ever sent), and the whole batch still runs every
record's section in order and completes. -/
theorem claim_C1_per_record_isolation (env : Env) (o : Oracle) (content : String)
    (user : List String) (e : JsErr)
    (cs1 cs2 : List HttpRequest) (ls1 ls2 : List String)
    (oid : JsValue) (ti : JsValue × JsValue)
    (hmem : user ∈ parseUsers content)
    (horg : getOrganizationId (jsOr env.githubOrganization "undefined") env o =
      (cs1, ls1, Except.ok oid))
    (htpl : getTemplateProjectId (jsOr env.githubOrganization "undefined")
        (jsOr env.githubProjectTemplateNumber "undefined") env o =
      (cs2, ls2, Except.ok ti))
    (hfail : resultOf (recordPipeline (jsOr env.githubOrganization "undefined") oid ti.1 user)
        env o = Except.error e) :
    resultOf (processUser (jsOr env.githubOrganization "undefined") oid ti.1 user) env o =
      Except.ok () ∧
    logsOf (processUser (jsOr env.githubOrganization "undefined") oid ti.1 user) env o =
      ("Creating project for " ++ jsInterpOpt (user.get? 0)) ::
        (logsOf (recordPipeline (jsOr env.githubOrganization "undefined") oid ti.1 user) env o ++
         ["\tError creating project for " ++ jsInterpOpt (user.get? 0), jsErrString e]) ∧
    callsOf (processUser (jsOr env.githubOrganization "undefined") oid ti.1 user) env o =
      callsOf (recordPipeline (jsOr env.githubOrganization "undefined") oid ti.1 user) env o ∧
    makeProjects content env o =
      (cs1 ++ cs2 ++ ((parseUsers content).map (fun u =>
          callsOf (processUser (jsOr env.githubOrganization "undefined") oid ti.1 u) env o)).flatten,
       ls1 ++ ("Using organization_id: " ++ jsInterp oid) :: (ls2 ++
         ("Using template_id: " ++ jsInterp ti.1 ++ " with name: " ++ jsInterp ti.2) ::
         ((parseUsers content).map (fun u =>
           logsOf (processUser (jsOr env.githubOrganization "undefined") oid ti.1 u) env o)).flatten),
       Except.ok ()) := by
  refine ⟨processUser_ok _ _ _ _ _ _, ?_, ?_,
    makeProjects_run content env o cs1 cs2 ls1 ls2 oid ti horg htpl⟩
  · rw [logsOf, processUser_run]
    simp only [hfail]
  · rw [callsOf, processUser_run]

/-- The platform of the C1 witness: the user "ghost" does not exist (the
platform answers `user: null`), everything else resolves. -/
def c1Oracle : Oracle
  | GraphQLCall.userQuery "ghost" =>
    JsValue.obj [("data", JsValue.obj [("user", JsValue.null)])]
  | c => goodOracle c

/-- Witness for C1 on the two-record roster "alice,ghost\nbob,builder"
whose first record fails at user resolution: the failure is caught and
logged with the label "alice", no further request is sent for that
record, and the batch still processes both records and succeeds. -/
theorem claim_C1_per_record_isolation_witness :
    resultOf (processUser "ksu-cs-projects-2025-2026" (JsValue.str "ORG_ID")
        (JsValue.str "TEMPLATE_ID") ["alice", "ghost"]) testEnv c1Oracle = Except.ok () ∧
    logsOf (processUser "ksu-cs-projects-2025-2026" (JsValue.str "ORG_ID")
        (JsValue.str "TEMPLATE_ID") ["alice", "ghost"]) testEnv c1Oracle =
      ("Creating project for " ++ jsInterpOpt (["alice", "ghost"].get? 0)) ::
        (logsOf (recordPipeline "ksu-cs-projects-2025-2026" (JsValue.str "ORG_ID")
            (JsValue.str "TEMPLATE_ID") ["alice", "ghost"]) testEnv c1Oracle ++
         ["\tError creating project for " ++ jsInterpOpt (["alice", "ghost"].get? 0),
          jsErrString (JsErr.typeError "id")]) ∧
    callsOf (processUser "ksu-cs-projects-2025-2026" (JsValue.str "ORG_ID")
        (JsValue.str "TEMPLATE_ID") ["alice", "ghost"]) testEnv c1Oracle =
      callsOf (recordPipeline "ksu-cs-projects-2025-2026" (JsValue.str "ORG_ID")
        (JsValue.str "TEMPLATE_ID") ["alice", "ghost"]) testEnv c1Oracle ∧
    makeProjects "alice,ghost\nbob,builder" testEnv c1Oracle =
      ([mkRequest testEnv (GraphQLCall.organizationIdQuery "ksu-cs-projects-2025-2026")] ++
        [mkRequest testEnv (GraphQLCall.organizationProjectV2Query
          "ksu-cs-projects-2025-2026" "1")] ++
        ((parseUsers "alice,ghost\nbob,builder").map (fun u =>
          callsOf (processUser "ksu-cs-projects-2025-2026" (JsValue.str "ORG_ID")
            (JsValue.str "TEMPLATE_ID") u) testEnv c1Oracle)).flatten,
       [] ++ ("Using organization_id: " ++ jsInterp (JsValue.str "ORG_ID")) ::
         (["Getting template project id for project number: 1"] ++
          ("Using template_id: " ++ jsInterp (JsValue.str "TEMPLATE_ID") ++ " with name: "
            ++ jsInterp (JsValue.str "Template")) ::
          ((parseUsers "alice,ghost\nbob,builder").map (fun u =>
            logsOf (processUser "ksu-cs-projects-2025-2026" (JsValue.str "ORG_ID")
              (JsValue.str "TEMPLATE_ID") u) testEnv c1Oracle)).flatten),
       Except.ok ()) :=
  claim_C1_per_record_isolation testEnv c1Oracle "alice,ghost\nbob,builder"
    ["alice", "ghost"] (JsErr.typeError "id")
    [mkRequest testEnv (GraphQLCall.organizationIdQuery "ksu-cs-projects-2025-2026")]
    [mkRequest testEnv (GraphQLCall.organizationProjectV2Query "ksu-cs-projects-2025-2026" "1")]
    [] ["Getting template project id for project number: 1"]
    (JsValue.str "ORG_ID") (JsValue.str "TEMPLATE_ID", JsValue.str "Template")
    (by decide) rfl rfl rfl

/-- The first request a record's pipeline sends is always the resolution of
its (possibly undefined) username. -/
theorem recordPipeline_first_call (organization : String) (oid tid : JsValue)
    (user : List String) (env : Env) (o : Oracle) :
    (callsOf (recordPipeline organization oid tid user) env o).head? =
      some (mkRequest env (GraphQLCall.userQuery (jsInterpOpt (user.get? 1)))) := by
  unfold recordPipeline
  exact head_calls_bind _ _ _ _ _ [] rfl

/-- The platform of the C8 analysis: the user named "undefined" (the
coercion of the blank record's missing username) does not exist; every
other entity resolves. -/
def c8Oracle : Oracle
  | GraphQLCall.userQuery "undefined" =>
    JsValue.obj [("data", JsValue.obj [("user", JsValue.null)])]
  | c => goodOracle c

/-- Counterexample to C8 as stated: a trailing blank line is not free of
pipeline side effects — the batch on "alice,bob\n" issues exactly one
request more than the batch on "alice,bob" (the user resolution for the
phantom record's coerced username "undefined"), so the two traces
differ. -/
theorem claim_C8_counterexample :
    callsOf (makeProjects "alice,bob\n") testEnv c8Oracle =
      callsOf (makeProjects "alice,bob") testEnv c8Oracle ++
        [mkRequest testEnv (GraphQLCall.userQuery "undefined")] ∧
    callsOf (makeProjects "alice,bob\n") testEnv c8Oracle ≠
      callsOf (makeProjects "alice,bob") testEnv c8Oracle := by
  constructor
  · rfl
  · decide

/-- C8 as amended: an input whose last line is blank parses to the records
of the input without it plus one empty record; the earlier records are
processed exactly as if the blank line were absent (the batch trace is the
shorter input's trace followed by the empty record's own section), the
batch still completes successfully — but the blank line is not side-effect
free: the empty record's pipeline is attempted, beginning with a user
resolution request for the coerced username "undefined". -/
theorem claim_C8_amended_trailing_blank (env : Env) (o : Oracle) (cs : List Char)
    (cs1 cs2 : List HttpRequest) (ls1 ls2 : List String)
    (oid : JsValue) (ti : JsValue × JsValue)
    (horg : getOrganizationId (jsOr env.githubOrganization "undefined") env o =
      (cs1, ls1, Except.ok oid))
    (htpl : getTemplateProjectId (jsOr env.githubOrganization "undefined")
        (jsOr env.githubProjectTemplateNumber "undefined") env o =
      (cs2, ls2, Except.ok ti)) :
    parseUsers (String.mk (cs ++ ['\n'])) = parseUsers (String.mk cs) ++ [[""]] ∧
    callsOf (makeProjects (String.mk (cs ++ ['\n']))) env o =
      callsOf (makeProjects (String.mk cs)) env o ++
        callsOf (processUser (jsOr env.githubOrganization "undefined") oid ti.1 [""]) env o ∧
    logsOf (makeProjects (String.mk (cs ++ ['\n']))) env o =
      logsOf (makeProjects (String.mk cs)) env o ++
        logsOf (processUser (jsOr env.githubOrganization "undefined") oid ti.1 [""]) env o ∧
    resultOf (makeProjects (String.mk (cs ++ ['\n']))) env o = Except.ok () ∧
    (callsOf (processUser (jsOr env.githubOrganization "undefined") oid ti.1 [""]) env o).head?
      = some (mkRequest env (GraphQLCall.userQuery "undefined")) := by
  have hparse := parseUsers_append_newline cs
  have hrun2 := makeProjects_run (String.mk (cs ++ ['\n'])) env o cs1 cs2 ls1 ls2 oid ti
    horg htpl
  have hrun1 := makeProjects_run (String.mk cs) env o cs1 cs2 ls1 ls2 oid ti horg htpl
  rw [hparse] at hrun2
  refine ⟨hparse, ?_, ?_, ?_, ?_⟩
  · rw [callsOf, hrun2, callsOf, hrun1]
    simp [List.append_assoc]
  · rw [logsOf, hrun2, logsOf, hrun1]
    simp [List.append_assoc]
  · rw [resultOf, hrun2]
  · rw [callsOf, processUser_run]
    exact recordPipeline_first_call _ _ _ _ _ _

/-- Witness for the amended C8 at the concrete input "a,b" plus a trailing
newline, under a platform where the user "undefined" does not exist. -/
theorem claim_C8_amended_trailing_blank_witness :
    parseUsers (String.mk (['a', ',', 'b'] ++ ['\n'])) =
      parseUsers (String.mk ['a', ',', 'b']) ++ [[""]] ∧
    callsOf (makeProjects (String.mk (['a', ',', 'b'] ++ ['\n']))) testEnv c8Oracle =
      callsOf (makeProjects (String.mk ['a', ',', 'b'])) testEnv c8Oracle ++
        callsOf (processUser "ksu-cs-projects-2025-2026" (JsValue.str "ORG_ID")
          (JsValue.str "TEMPLATE_ID") [""]) testEnv c8Oracle ∧
    logsOf (makeProjects (String.mk (['a', ',', 'b'] ++ ['\n']))) testEnv c8Oracle =
      logsOf (makeProjects (String.mk ['a', ',', 'b'])) testEnv c8Oracle ++
        logsOf (processUser "ksu-cs-projects-2025-2026" (JsValue.str "ORG_ID")
          (JsValue.str "TEMPLATE_ID") [""]) testEnv c8Oracle ∧
    resultOf (makeProjects (String.mk (['a', ',', 'b'] ++ ['\n']))) testEnv c8Oracle =
      Except.ok () ∧
    (callsOf (processUser "ksu-cs-projects-2025-2026" (JsValue.str "ORG_ID")
        (JsValue.str "TEMPLATE_ID") [""]) testEnv c8Oracle).head? =
      some (mkRequest testEnv (GraphQLCall.userQuery "undefined")) :=
  claim_C8_amended_trailing_blank testEnv c8Oracle ['a', ',', 'b']
    [mkRequest testEnv (GraphQLCall.organizationIdQuery "ksu-cs-projects-2025-2026")]
    [mkRequest testEnv (GraphQLCall.organizationProjectV2Query "ksu-cs-projects-2025-2026" "1")]
    [] ["Getting template project id for project number: 1"]
    (JsValue.str "ORG_ID") (JsValue.str "TEMPLATE_ID", JsValue.str "Template") rfl rfl

end CIS598
